import Mathlib

/-
Verification of the transport and command layer of the pycs debug-probe
driver (jlink.py and stlink.py): the USB bulk byte transport with its
chunked read cache, the capability/version gating of the J-Link command
set, and the ST-Link command channel.

USB I/O is modelled with explicit oracles:
  * reads are a list of buffers, the successive results of `_read()`;
    an exhausted list stands for a device that keeps returning no data
    (an empty bulk read);
  * writes are a function from the chunk passed to `_write()` to the
    length the USB stack reports back, and every model returns the
    ordered list of chunk payloads it put on the wire, so that
    "no I/O was performed" is the statement that this list is empty.
Bytes are natural numbers; Python's unbounded integers are Nat/Int.
-/

namespace Pycs

/-- Little-endian 32-bit decode, struct.unpack of a 4-byte buffer
(jlink.py's struct.unpack and stlink.py's read_u32). -/
def read_u32 (x : List Nat) : Nat :=
  x.getD 0 0 + x.getD 1 0 * 256 + x.getD 2 0 * 65536 + x.getD 3 0 * 16777216

namespace JLink

def EMU_CMD_GET_MAX_MEM_BLOCK : Nat := 0xd4
def EMU_CMD_GET_CAPS : Nat := 0xe8
def EMU_CMD_GET_HW_VERSION : Nat := 0xf0
def EMU_CMD_READ_CONFIG : Nat := 0xf2

def EMU_CAP_GET_HW_VERSION : Nat := 1
def EMU_CAP_READ_CONFIG : Nat := 4
def EMU_CAP_GET_MAX_BLOCK_SIZE : Nat := 11

/-- The byte-transport state of a JLink object: the read cache
(`self.readbuffer`), the read offset into it (`self.readoffset`) and the
endpoint's maximum packet size (`self.max_packet_size`). -/
structure XportState where
  readbuffer : List Nat
  readoffset : Nat
  max_packet_size : Nat
deriving Repr, DecidableEq

/-- Outcome of the read loop of JLink.read_data_bytes: the bytes handed to
the caller, the final read cache and offset, and the number of USB bulk
reads that were issued. -/
structure ReadResult where
  data : List Nat
  readbuffer : List Nat
  readoffset : Nat
  usbReads : Nat
deriving Repr, DecidableEq

/-- The de-chunk loop of JLink.read_data_bytes (lines 247-254): the raw
bulk buffer is cut into `packet_size`-sized quanta (`chunks` of them,
`srcoff` advancing by `packet_size`), and for each quantum the slice
`tempbuf[srcoff : srcoff + count]` is appended to the new read buffer.
The source sets `count = packet_size`, the full quantum. -/
def dechunk (packet_size : Nat) (tempbuf : List Nat) : List Nat :=
  let chunks := (tempbuf.length + packet_size - 1) / packet_size
  let count := packet_size
  (List.range chunks).foldl
    (fun acc i => acc ++ (tempbuf.drop (i * packet_size)).take count) []

/-- The cache refill of JLink.read_data_bytes on a non-empty bulk read:
`self.readbuffer` is rebuilt by the de-chunk loop and `self.readoffset`
is reset to zero. -/
def refill (packet_size : Nat) (tempbuf : List Nat) : List Nat × Nat :=
  (dechunk packet_size tempbuf, 0)

/-- Modelled from the spec: the spec's version of the de-chunk step says the
device "interleaves a protocol status/length byte per packet quantum" and
that the payload is rebuilt "by concatenating each packet-quantum's data
region, discarding the per-packet status byte region".  This definition
follows those words (one status byte per quantum, here placed at the head of
the quantum, the data region being the rest); it exists only to be compared
with `dechunk`, the definition taken from the source. -/
def dechunk_spec_status (packet_size : Nat) (tempbuf : List Nat) : List Nat :=
  let chunks := (tempbuf.length + packet_size - 1) / packet_size
  (List.range chunks).foldl
    (fun acc i => acc ++ ((tempbuf.drop (i * packet_size)).take packet_size).drop 1) []

/-- The inner `while True` retry loop of JLink.read_data_bytes
(lines 241-265): issue `self._read()`, decrement `attempt`; a non-empty
buffer breaks out of the loop, an empty one is retried while the
decremented budget is still positive, and an exhausted budget gives up.
Returns (the non-empty buffer if one was obtained, the unconsumed rest of
the read oracle, the remaining attempt budget, the number of bulk reads
issued). -/
def retryRead (attempt : Nat) (oracle : List (List Nat)) :
    Option (List Nat) × List (List Nat) × Nat × Nat :=
  match oracle with
  | [] =>
    if attempt - 1 > 0 then
      let r := retryRead (attempt - 1) []
      (r.1, r.2.1, r.2.2.1, r.2.2.2 + 1)
    else
      (none, [], attempt - 1, 1)
  | tempbuf :: rest =>
    if tempbuf.length > 0 then
      (some tempbuf, rest, attempt - 1, 1)
    else if attempt - 1 > 0 then
      let r := retryRead (attempt - 1) rest
      (r.1, r.2.1, r.2.2.1, r.2.2.2 + 1)
    else
      (none, rest, attempt - 1, 1)
termination_by (oracle.length, attempt)
decreasing_by
  all_goals (simp_wf; omega)

/-- The outer `while (len(data) < size) and (length > 0)` loop of
JLink.read_data_bytes (lines 240-282).  Each iteration runs the inner
retry loop; giving up empties the cache and returns the data accumulated
so far; a successful bulk read refills the cache and either consumes it
whole (returning when the request is complete, otherwise looping) or takes
the partial slice that completes the request.  `fuel` bounds the
recursion; every iteration consumes at least one oracle element, so
`oracle.length + 1` is always enough, and the `fuel = 0` case coincides
with the function's unreachable trailing `raise JLinkError("Internal
error")`. -/
def readLoop (fuel : Nat) (size packet_size attempt : Nat) (data : List Nat)
    (oracle : List (List Nat)) (reads : Nat) : Except String ReadResult :=
  match fuel with
  | 0 => .error "Internal error"
  | fuel + 1 =>
    if data.length < size then
      match retryRead attempt oracle with
      | (none, _, _, n) => .ok ⟨data, [], 0, reads + n⟩
      | (some tempbuf, rest, attempt', n) =>
        let rb := (refill packet_size tempbuf).1
        let ro := (refill packet_size tempbuf).2
        let length := rb.length
        if 0 < length then
          if data.length + length ≤ size then
            let data' := data ++ (rb.drop ro).take length
            if data'.length = size then
              .ok ⟨data', rb, ro + length, reads + n⟩
            else
              readLoop fuel size packet_size attempt' data' rest (reads + n)
          else
            let part_size := min (size - data.length) (rb.length - ro)
            .ok ⟨data ++ (rb.drop ro).take part_size, rb, ro + part_size, reads + n⟩
        else
          .error "Internal error"
    else
      .error "Internal error"

/-- JLink.read_data_bytes (lines 220-286).  State passing is explicit: the
result carries the data returned to the caller, the successor transport
state, and the number of USB bulk reads issued.  The cache comparisons are
over Int, as Python's `len(self.readbuffer) - self.readoffset` is a signed
difference. -/
def read_data_bytes (size attempt : Nat) (s : XportState)
    (oracle : List (List Nat)) : Except String (List Nat × XportState × Nat) :=
  if s.max_packet_size = 0 then
    .error "max_packet_size is bogus"
  else
    let packet_size := s.max_packet_size
    if (size : Int) ≤ (s.readbuffer.length : Int) - (s.readoffset : Int) then
      .ok ((s.readbuffer.drop s.readoffset).take size,
           { s with readoffset := s.readoffset + size }, 0)
    else
      let data :=
        if (s.readbuffer.length : Int) - (s.readoffset : Int) ≠ 0 then
          s.readbuffer.drop s.readoffset
        else []
      match readLoop (oracle.length + 1) size packet_size attempt data oracle 0 with
      | .ok r => .ok (r.data, ⟨r.readbuffer, r.readoffset, s.max_packet_size⟩, r.usbReads)
      | .error e => .error e

/-- The chunked write loop of JLink.write_data (lines 203-218): while
`offset < size`, take the next chunk of at most `chunksize` bytes, hand it
to `self._write` (the oracle), fail with JLinkError("Usb bulk write
error") if the reported length is zero or negative, otherwise advance
`offset` by it.  The first component is the outcome (the final offset, the
total returned by write_data, or the raised error); the second is the
ordered list of every chunk payload handed to `self._write` and hence put
on the wire, including the chunk whose write failed.  `fuel` bounds the
recursion; `data.length + 1` is always enough for any oracle, because an
iteration either stops or advances `offset` by at least one. -/
def write_data_loop (chunksize : Nat) (data : List Nat) (oracle : List Nat → Int)
    (offset : Nat) (fuel : Nat) : Except String Nat × List (List Nat) :=
  match fuel with
  | 0 => (.error "Internal error", [])
  | fuel + 1 =>
    if offset < data.length then
      let write_size :=
        if offset + chunksize > data.length then data.length - offset else chunksize
      let chunk := (data.drop offset).take write_size
      let length := oracle chunk
      if length ≤ 0 then
        (.error "Usb bulk write error", [chunk])
      else
        let r := write_data_loop chunksize data oracle (offset + length.toNat) fuel
        (r.1, chunk :: r.2)
    else
      (.ok offset, [])

/-- JLink.write_data with the write-chunk size (`self.writebuffer_chunksize`,
4 KiB in the source but an attribute of the object) made explicit. -/
def write_data (chunksize : Nat) (data : List Nat) (oracle : List Nat → Int) :
    Except String Nat × List (List Nat) :=
  write_data_loop chunksize data oracle 0 (data.length + 1)

/-- The source's default write-chunk size, `self.writebuffer_chunksize = 4 << 10`. -/
def writebuffer_chunksize : Nat := 4 <<< 10

/-- JLink.get_hw_version (lines 305-310): gated on EMU_CAP_GET_HW_VERSION,
then a one-opcode write followed by a 4-byte little-endian read.  Returns
the result together with the list of command frames written. -/
def get_hw_version (caps : Nat) (stream : List Nat) :
    Except String Nat × List (List Nat) :=
  if caps &&& (1 <<< EMU_CAP_GET_HW_VERSION) = 0 then
    (.error "EMU_CMD_GET_HW_VERSION not supported", [])
  else
    let x := stream.take 4
    if x.length = 4 then
      (.ok (read_u32 x), [[EMU_CMD_GET_HW_VERSION]])
    else
      (.error "struct.error", [[EMU_CMD_GET_HW_VERSION]])

/-- JLink.get_max_mem_block (lines 312-317): gated on
EMU_CAP_GET_MAX_BLOCK_SIZE, then a one-opcode write followed by a 4-byte
little-endian read. -/
def get_max_mem_block (caps : Nat) (stream : List Nat) :
    Except String Nat × List (List Nat) :=
  if caps &&& (1 <<< EMU_CAP_GET_MAX_BLOCK_SIZE) = 0 then
    (.error "EMU_CMD_GET_MAX_MEM_BLOCK not supported", [])
  else
    let x := stream.take 4
    if x.length = 4 then
      (.ok (read_u32 x), [[EMU_CMD_GET_MAX_MEM_BLOCK]])
    else
      (.error "struct.error", [[EMU_CMD_GET_MAX_MEM_BLOCK]])

/-- JLink.get_config (lines 319-324): gated on EMU_CAP_READ_CONFIG, then a
one-opcode write followed by a 256-byte read. -/
def get_config (caps : Nat) (stream : List Nat) :
    Except String (List Nat) × List (List Nat) :=
  if caps &&& (1 <<< EMU_CAP_READ_CONFIG) = 0 then
    (.error "EMU_CMD_READ_CONFIG not supported", [])
  else
    (.ok (stream.take 256), [[EMU_CMD_READ_CONFIG]])

/-- The hardware-version decomposition of JLink.__str__ (lines 344-349):
type, major, minor and revision obtained from the packed integer with the
fixed divisors 1000000, 10000, 100 and 1. -/
def decode_hw_version (v : Nat) : Nat × Nat × Nat × Nat :=
  (v / 1000000 % 100, v / 10000 % 100, v / 100 % 100, v % 100)

/-- The early interface check of JLink.open (line 193): the call is
rejected with `JLinkError("No such J-Link port")` exactly when the
requested interface number exceeds the configuration's interface count. -/
def open_rejects_interface (bNumInterfaces : Nat) (interface : Nat) : Prop :=
  interface > bNumInterfaces

/-- Insertion into a sorted list, for the model of Python's sorted(). -/
def insertSorted (x : Nat) : List Nat → List Nat
  | [] => [x]
  | y :: ys => if x ≤ y then x :: y :: ys else y :: insertSorted x ys

/-- Python's sorted() on a list of naturals (ascending), used by
JLink._set_interface on the endpoint addresses. -/
def pySorted : List Nat → List Nat
  | [] => []
  | x :: xs => insertSorted x (pySorted xs)

/-- The active USB configuration as _set_interface sees it: the interface
count `bNumInterfaces` and, for each interface index, the endpoint
addresses of its alternate setting 0. -/
structure UsbConfig where
  bNumInterfaces : Nat
  itf : Nat → List Nat

/-- What _set_interface stores on success: `self.index`, the selected
interface (by its zero-based number) and the input/output endpoint pair. -/
structure ItfSel where
  index : Nat
  itfnum : Nat
  in_ep : Nat
  out_ep : Nat
deriving Repr, DecidableEq

/-- JLink._set_interface (lines 374-383): an interface number of 0 is
silently remapped to 1; numbers whose predecessor is not a valid interface
index raise ValueError; otherwise the interface `(ifnum-1, 0)` is
selected, its endpoint addresses sorted, and the first two taken as the
in/out endpoint pair (fewer than two is Python's unpack ValueError). -/
def set_interface (config : UsbConfig) (ifnum : Nat) : Except String ItfSel :=
  let ifnum := if ifnum = 0 then 1 else ifnum
  if ¬ ifnum - 1 < config.bNumInterfaces then
    .error "No such interface for this device"
  else
    let endpoints := pySorted (config.itf (ifnum - 1))
    match endpoints with
    | a :: b :: _ => .ok ⟨ifnum, ifnum - 1, a, b⟩
    | _ => .error "need more than 1 value to unpack"

end JLink

namespace Stlink

def STLINK_GET_VERSION : Nat := 0xF1
def STLINK_DEBUG_COMMAND : Nat := 0xF2
def STLINK_DFU_COMMAND : Nat := 0xF3
def STLINK_SWIM_COMMAND : Nat := 0xF4
def STLINK_GET_CURRENT_MODE : Nat := 0xF5
def STLINK_GET_TARGET_VOLTAGE : Nat := 0xF7

def STLINK_DEBUG_GETSTATUS : Nat := 0x01
def STLINK_DEBUG_FORCEDEBUG : Nat := 0x02
def STLINK_DEBUG_APIV1_READREG : Nat := 0x05
def STLINK_DEBUG_READMEM_32BIT : Nat := 0x07
def STLINK_DEBUG_RUNCORE : Nat := 0x09
def STLINK_DEBUG_READMEM_8BIT : Nat := 0x0c
def STLINK_DEBUG_APIV1_ENTER : Nat := 0x20
def STLINK_DEBUG_EXIT : Nat := 0x21
def STLINK_DEBUG_READCOREID : Nat := 0x22
def STLINK_DEBUG_APIV2_ENTER : Nat := 0x30

def STLINK_DEBUG_ENTER_JTAG : Nat := 0x00
def STLINK_DEBUG_ENTER_SWD : Nat := 0xa3
def STLINK_DFU_EXIT : Nat := 0x07
def STLINK_SWIM_ENTER : Nat := 0x00
def STLINK_SWIM_EXIT : Nat := 0x01

/-- The per-transfer ceiling of 8-bit memory reads and writes. -/
def STLINK_MAX_RW8 : Nat := 64

/-- struct.pack of a little-endian unsigned 32-bit value (append_u32). -/
def pack_u32 (v : Nat) : List Nat :=
  [v % 256, v / 256 % 256, v / 65536 % 256, v / 16777216 % 256]

/-- struct.pack of a little-endian unsigned 16-bit value (append_u16). -/
def pack_u16 (v : Nat) : List Nat :=
  [v % 256, v / 256 % 256]

/-- The derived ST-Link API revision ('v1' or 'v2', set by get_version). -/
inductive Api where
  | v1
  | v2
deriving Repr, DecidableEq

/-- stlink.send_recv (lines 155-161): write `data` over the byte transport
when it is non-empty, then read `size` bytes when `size > 0`; a zero size
performs no read and the Python function returns None (here `none`).
The result carries the value returned to the caller, the list of frames
written, and the list of read sizes requested. -/
def send_recv (data : List Nat) (size : Nat) (stream : List Nat) :
    Option (List Nat) × List (List Nat) × List Nat :=
  let writes := if data.length > 0 then [data] else []
  if size > 0 then
    (some (stream.take size), writes, [size])
  else
    (none, writes, [])

/-- stlink.get_status (lines 184-188): asserts the v1 API (the AssertionError
message is 'TODO for apiv2'), then exchanges the two-byte GETSTATUS frame
for two bytes and maps the first response byte through
{0x80: running, 0x81: halted}, other values to None. -/
def get_status (api : Api) (stream : List Nat) :
    Except String (Option String) × List (List Nat) :=
  if api = Api.v1 then
    match stream.take 2 with
    | [] => (.error "IndexError", [[STLINK_DEBUG_COMMAND, STLINK_DEBUG_GETSTATUS]])
    | b :: _ =>
      (.ok (if b = 0x80 then some "running"
            else if b = 0x81 then some "halted" else none),
       [[STLINK_DEBUG_COMMAND, STLINK_DEBUG_GETSTATUS]])
  else
    (.error "TODO for apiv2", [])

/-- stlink.halt (lines 231-234): asserts the v1 API, then exchanges the
FORCEDEBUG frame for two bytes. -/
def halt (api : Api) (_stream : List Nat) :
    Except String Unit × List (List Nat) :=
  if api = Api.v1 then
    (.ok (), [[STLINK_DEBUG_COMMAND, STLINK_DEBUG_FORCEDEBUG]])
  else
    (.error "TODO for apiv2", [])

/-- stlink.run (lines 236-239): asserts the v1 API, then exchanges the
RUNCORE frame for two bytes. -/
def run (api : Api) (_stream : List Nat) :
    Except String Unit × List (List Nat) :=
  if api = Api.v1 then
    (.ok (), [[STLINK_DEBUG_COMMAND, STLINK_DEBUG_RUNCORE]])
  else
    (.error "TODO for apiv2", [])

/-- stlink.read_reg (lines 243-247): asserts the v1 API, then exchanges the
three-byte APIV1_READREG frame for four bytes decoded little-endian. -/
def read_reg (api : Api) (num : Nat) (stream : List Nat) :
    Except String Nat × List (List Nat) :=
  if api = Api.v1 then
    let x := stream.take 4
    if x.length = 4 then
      (.ok (read_u32 x), [[STLINK_DEBUG_COMMAND, STLINK_DEBUG_APIV1_READREG, num]])
    else
      (.error "struct.error", [[STLINK_DEBUG_COMMAND, STLINK_DEBUG_APIV1_READREG, num]])
  else
    (.error "TODO for apiv2", [])

/-- The numeric module-level constants bound in stlink.py (the names a bare
identifier in the module's functions can resolve to, besides its functions,
tables and imports).  Note that no name of the form DBG_CMD_... is among
them: `rd_mem8` and `rd_mem32` reference DBG_CMD_RDMEM_8BIT and
DBG_CMD_RDMEM_32BIT, which are never defined. -/
def stlinkModuleConsts : List (String × Nat) :=
  [("STLINK_GET_VERSION", 0xF1),
   ("STLINK_DEBUG_COMMAND", 0xF2),
   ("STLINK_DFU_COMMAND", 0xF3),
   ("STLINK_SWIM_COMMAND", 0xF4),
   ("STLINK_GET_CURRENT_MODE", 0xF5),
   ("STLINK_GET_TARGET_VOLTAGE", 0xF7),
   ("STLINK_DEBUG_ENTER_JTAG", 0x00),
   ("STLINK_DEBUG_GETSTATUS", 0x01),
   ("STLINK_DEBUG_FORCEDEBUG", 0x02),
   ("STLINK_DEBUG_APIV1_RESETSYS", 0x03),
   ("STLINK_DEBUG_APIV1_READALLREGS", 0x04),
   ("STLINK_DEBUG_APIV1_READREG", 0x05),
   ("STLINK_DEBUG_APIV1_WRITEREG", 0x06),
   ("STLINK_DEBUG_READMEM_32BIT", 0x07),
   ("STLINK_DEBUG_WRITEMEM_32BIT", 0x08),
   ("STLINK_DEBUG_RUNCORE", 0x09),
   ("STLINK_DEBUG_STEPCORE", 0x0a),
   ("STLINK_DEBUG_APIV1_SETFP", 0x0b),
   ("STLINK_DEBUG_READMEM_8BIT", 0x0c),
   ("STLINK_DEBUG_WRITEMEM_8BIT", 0x0d),
   ("STLINK_DEBUG_APIV1_CLEARFP", 0x0e),
   ("STLINK_DEBUG_APIV1_WRITEDEBUGREG", 0x0f),
   ("STLINK_DEBUG_APIV1_SETWATCHPOINT", 0x10),
   ("STLINK_DEBUG_APIV1_ENTER", 0x20),
   ("STLINK_DEBUG_EXIT", 0x21),
   ("STLINK_DEBUG_READCOREID", 0x22),
   ("STLINK_DEBUG_APIV2_ENTER", 0x30),
   ("STLINK_DEBUG_APIV2_READ_IDCODES", 0x31),
   ("STLINK_DEBUG_APIV2_RESETSYS", 0x32),
   ("STLINK_DEBUG_APIV2_READREG", 0x33),
   ("STLINK_DEBUG_APIV2_WRITEREG", 0x34),
   ("STLINK_DEBUG_APIV2_WRITEDEBUGREG", 0x35),
   ("STLINK_DEBUG_APIV2_READDEBUGREG", 0x36),
   ("STLINK_DEBUG_APIV2_READALLREGS", 0x3A),
   ("STLINK_DEBUG_APIV2_GETLASTRWSTATUS", 0x3B),
   ("STLINK_DEBUG_APIV2_DRIVE_NRST", 0x3C),
   ("STLINK_DEBUG_APIV2_START_TRACE_RX", 0x40),
   ("STLINK_DEBUG_APIV2_STOP_TRACE_RX", 0x41),
   ("STLINK_DEBUG_APIV2_GET_TRACE_NB", 0x42),
   ("STLINK_DEBUG_APIV2_SWD_SET_FREQ", 0x43),
   ("STLINK_DEBUG_ENTER_SWD", 0xa3),
   ("STLINK_DFU_EXIT", 0x07),
   ("STLINK_SWIM_ENTER", 0x00),
   ("STLINK_SWIM_EXIT", 0x01),
   ("STLINK_MAX_RW8", 64)]

/-- Python name resolution for a bare identifier used inside stlink.py's
methods: a hit in the module's constant table, or a NameError. -/
def lookupConst (name : String) : Option Nat :=
  (stlinkModuleConsts.find? (fun p => p.1 == name)).map (fun p => p.2)

/-- stlink.rd_mem8 (lines 287-298): assert `n <= STLINK_MAX_RW8`; widen a
single-byte request to a two-byte device read; build the command frame
from STLINK_DEBUG_COMMAND and the module-level name DBG_CMD_RDMEM_8BIT
(resolved through `lookupConst`, exactly as Python resolves the bare
identifier - the name is not defined anywhere in stlink.py, so the frame
construction raises NameError before any I/O); exchange it for `nread`
bytes and return the first `n`. -/
def rd_mem8 (adr n : Nat) (stream : List Nat) :
    Except String (List Nat) × List (List Nat) :=
  if ¬ n ≤ STLINK_MAX_RW8 then
    (.error "AssertionError", [])
  else
    let nread := if n = 1 then n + 1 else n
    match lookupConst "DBG_CMD_RDMEM_8BIT" with
    | none => (.error "NameError: name DBG_CMD_RDMEM_8BIT is not defined", [])
    | some op =>
      let cmd := [STLINK_DEBUG_COMMAND, op] ++ pack_u32 adr ++ pack_u16 nread
      let x := stream.take nread
      if n ≤ x.length then
        (.ok (x.take n), [cmd])
      else
        (.error "IndexError", [cmd])

end Stlink

/-
Helper lemmas (shared across claims).
-/

namespace JLink

/-- The de-chunk fold over the first k quanta reproduces the first k*p bytes
of the raw buffer: the copy width equals the stride, so nothing is lost. -/
theorem dechunk_foldl (p : Nat) (buf : List Nat) (k : Nat) :
    (List.range k).foldl (fun acc i => acc ++ (buf.drop (i * p)).take p) [] =
      buf.take (k * p) := by
  induction k with
  | zero => simp
  | succ k ih =>
    rw [List.range_succ, List.foldl_append]
    simp only [List.foldl_cons, List.foldl_nil]
    rw [ih, Nat.succ_mul, List.take_add]

/-- Ceiling division: for positive p, dividing rounded up and multiplying
back dominates the dividend. -/
theorem ceil_mul_ge (p len : Nat) (hp : 1 ≤ p) :
    len ≤ (len + p - 1) / p * p := by
  have h2 : p * ((len + p - 1) / p) + (len + p - 1) % p = len + p - 1 :=
    Nat.div_add_mod _ _
  have h3 : (len + p - 1) % p < p := Nat.mod_lt _ (by omega)
  rw [Nat.mul_comm]
  generalize p * ((len + p - 1) / p) = A at h2 ⊢
  generalize (len + p - 1) % p = r at h2 h3
  omega

/-- For a positive packet size the de-chunk loop is the identity. -/
theorem dechunk_eq_self (p : Nat) (buf : List Nat) (hp : 1 ≤ p) :
    dechunk p buf = buf := by
  unfold dechunk
  rw [dechunk_foldl]
  exact List.take_of_length_le (ceil_mul_ge p buf.length hp)

/-- With every bulk read coming back empty, the retry loop issues
max(attempt, 1) reads, runs the budget down to zero and gives up. -/
theorem retryRead_nil (attempt : Nat) :
    retryRead attempt [] = (none, [], 0, max attempt 1) := by
  induction attempt with
  | zero => simp [retryRead]
  | succ a ih =>
    rw [retryRead]
    rcases Nat.eq_zero_or_pos a with h | h
    · subst h; simp
    · have h1 : a + 1 - 1 > 0 := by omega
      rw [if_pos h1]
      simp only [Nat.add_sub_cancel, ih]
      have h2 : max a 1 + 1 = max (a + 1) 1 := by omega
      simp [h2]

/-- The two forms of the capability test: the source's
`caps & (1 << bit) == 0` and the spec's `(caps >> bit) & 1 == 0`. -/
theorem gate_iff (caps b : Nat) :
    caps &&& (1 <<< b) = 0 ↔ (caps >>> b) &&& 1 = 0 := by
  rw [Nat.one_shiftLeft, Nat.and_two_pow, Nat.shiftRight_eq_div_pow,
      Nat.and_one_is_mod, Nat.testBit_to_div_mod]
  rcases Nat.mod_two_eq_zero_or_one (caps / 2 ^ b) with h | h
  · simp [h]
  · simp [h, (Nat.two_pow_pos b).ne']

/-- The happy-path write loop: when the USB stack accepts every chunk in
full, the loop walks the buffer chunk by chunk, reports the full input
length, and the payloads it put on the wire concatenate to the
still-unwritten part of the input. -/
theorem write_loop_ok (w : Nat) (hw : 1 ≤ w) (data : List Nat)
    (oracle : List Nat → Int) (hful : ∀ c, oracle c = c.length) :
    ∀ (fuel offset : Nat), offset ≤ data.length → data.length - offset < fuel →
      (write_data_loop w data oracle offset fuel).1 = .ok data.length ∧
      (write_data_loop w data oracle offset fuel).2.flatten = data.drop offset := by
  intro fuel
  induction fuel with
  | zero => intro offset _ h; omega
  | succ fuel ih =>
    intro offset hoff hfuel
    rw [write_data_loop]
    by_cases hlt : offset < data.length
    · rw [if_pos hlt]
      simp only [hful]
      set write_size := if offset + w > data.length then data.length - offset else w
        with hws
      have hws1 : 1 ≤ write_size := by
        rw [hws]; split <;> omega
      have hws2 : offset + write_size ≤ data.length := by
        rw [hws]; split <;> omega
      have hchunk : ((data.drop offset).take write_size).length = write_size := by
        simp [List.length_take, List.length_drop]; omega
      rw [hchunk]
      have hpos : ¬ ((write_size : Int) ≤ 0) := by
        omega
      rw [if_neg hpos]
      have htoNat : (write_size : Int).toNat = write_size := Int.toNat_natCast _
      rw [htoNat]
      obtain ⟨h1, h2⟩ := ih (offset + write_size) (by omega) (by omega)
      refine ⟨by simpa using h1, ?_⟩
      simp only [List.flatten_cons, h2]
      rw [← List.drop_drop]
      exact List.take_append_drop _ _
    · rw [if_neg hlt]
      have : offset = data.length := by omega
      subst this
      exact ⟨rfl, by simp⟩

/-- For any USB write oracle, from any loop state: the chunked write loop
raises "Usb bulk write error" exactly when one of the bulk writes it
performed (recorded in its on-wire trace, the failing chunk included)
reported a length of zero or less. -/
theorem write_loop_error_iff (w : Nat) (data : List Nat) (bad : List Nat → Int) :
    ∀ (fuel offset : Nat), data.length - offset < fuel →
      ((write_data_loop w data bad offset fuel).1 = .error "Usb bulk write error" ↔
        ∃ c ∈ (write_data_loop w data bad offset fuel).2, bad c ≤ 0) := by
  intro fuel
  induction fuel with
  | zero => intro offset h; omega
  | succ fuel ih =>
    intro offset hfuel
    rw [write_data_loop]
    by_cases hlt : offset < data.length
    · rw [if_pos hlt]
      set write_size := if offset + w > data.length then data.length - offset else w
        with hws
      set chunk := (data.drop offset).take write_size with hck
      by_cases hbad : bad chunk ≤ 0
      · rw [if_pos hbad]
        constructor
        · intro _
          exact ⟨chunk, by simp, hbad⟩
        · intro _
          rfl
      · rw [if_neg hbad]
        have hadv : 1 ≤ (bad chunk).toNat := by omega
        have hih := ih (offset + (bad chunk).toNat) (by omega)
        simp only [List.mem_cons]
        constructor
        · intro h1
          obtain ⟨c, hc, hcle⟩ := hih.mp (by simpa using h1)
          exact ⟨c, Or.inr hc, hcle⟩
        · rintro ⟨c, hc | hc, hcle⟩
          · subst hc; exact absurd hcle hbad
          · simpa using hih.mpr ⟨c, hc, hcle⟩
    · rw [if_neg hlt]
      simp

end JLink

/-
Claim theorems.
-/

namespace JLink

/-- C1 counterexample: the claim says the refill step discards the
per-packet status byte region and keeps only the data regions.  On the
concrete bulk buffer [10, 20, 30, 40] with max_packet_size 2, the source's
de-chunk loop keeps every byte (the copy width `count` equals the packet
size), whereas the spec-worded de-chunk, which discards a status byte from
each of the two quanta, does not reproduce it. -/
theorem dechunk_discards_nothing_cex :
    dechunk 2 [10, 20, 30, 40] = [10, 20, 30, 40] ∧
    dechunk_spec_status 2 [10, 20, 30, 40] = [20, 40] ∧
    dechunk_spec_status 2 [10, 20, 30, 40] ≠ dechunk 2 [10, 20, 30, 40] := by
  refine ⟨by decide, by decide, by decide⟩

/-- C1 (amended): in the refill step every non-empty USB bulk read buffer
is cut into max_packet_size-sized packet quanta that are copied in full -
the copy width equals the packet size, so the status-byte region the
source's comment mentions is empty and nothing is discarded - hence the
new Read Cache equals the raw buffer and its offset is reset to zero. -/
theorem refill_keeps_raw_buffer (p : Nat) (buf : List Nat) (hp : 1 ≤ p) :
    refill p buf = (buf, 0) := by
  unfold refill
  rw [dechunk_eq_self p buf hp]

/-- Witness for C1's amended theorem at p = 2, buf = [1, 2, 3]. -/
theorem refill_keeps_raw_buffer_witness :
    1 ≤ 2 ∧ refill 2 [1, 2, 3] = ([1, 2, 3], 0) :=
  ⟨by decide, refill_keeps_raw_buffer 2 [1, 2, 3] (by decide)⟩

/-- C2: whenever max_packet_size is initialized and the read cache holds at
least `size` unconsumed bytes, read_data_bytes serves the request from the
cache: it returns exactly the next `size` cached bytes in order, advances
the read offset by `size`, and issues no USB bulk read. -/
theorem read_data_bytes_cache_hit (size attempt : Nat) (s : XportState)
    (oracle : List (List Nat)) (hp : s.max_packet_size ≠ 0)
    (hc : (size : Int) ≤ (s.readbuffer.length : Int) - (s.readoffset : Int)) :
    read_data_bytes size attempt s oracle =
      .ok ((s.readbuffer.drop s.readoffset).take size,
           { s with readoffset := s.readoffset + size }, 0) := by
  simp only [read_data_bytes]
  rw [if_neg hp, if_pos hc]

/-- Witness for C2: a three-byte cache at offset 0 serves a two-byte read
with no USB I/O. -/
theorem read_data_bytes_cache_hit_witness :
    read_data_bytes 2 1 ⟨[1, 2, 3], 0, 64⟩ [] =
      .ok ([1, 2], ⟨[1, 2, 3], 2, 64⟩, 0) :=
  read_data_bytes_cache_hit 2 1 ⟨[1, 2, 3], 0, 64⟩ [] (by decide) (by decide)

/-- C3: when the cache cannot satisfy the request and every USB bulk read
comes back empty, read_data_bytes drains the cache, issues exactly
max(attempt, 1) bulk reads - the first probe plus at most attempt - 1
retries, so the empty read is retried at most the caller's budget - and
then returns the accumulated bytes as ordinary data of length strictly
less than requested (a short read), not as a raised error. -/
theorem read_data_bytes_short_read (size attempt : Nat) (s : XportState)
    (hp : s.max_packet_size ≠ 0)
    (hoff : s.readoffset ≤ s.readbuffer.length)
    (hm : (s.readbuffer.length : Int) - (s.readoffset : Int) < (size : Int)) :
    read_data_bytes size attempt s [] =
      .ok (s.readbuffer.drop s.readoffset,
           ⟨[], 0, s.max_packet_size⟩, max attempt 1) ∧
    (s.readbuffer.drop s.readoffset).length < size := by
  have hlt : (s.readbuffer.drop s.readoffset).length < size := by
    rw [List.length_drop]; omega
  refine ⟨?_, hlt⟩
  simp only [read_data_bytes]
  rw [if_neg hp,
      if_neg (show ¬ ((size : Int) ≤ (s.readbuffer.length : Int) - (s.readoffset : Int))
        by omega)]
  have hdata :
      (if (s.readbuffer.length : Int) - (s.readoffset : Int) ≠ 0 then
        s.readbuffer.drop s.readoffset
      else []) = s.readbuffer.drop s.readoffset := by
    split
    · rfl
    · rename_i h
      rw [List.drop_eq_nil_of_le (by omega)]
  rw [hdata]
  simp only [List.length_nil, Nat.zero_add, readLoop]
  rw [if_pos hlt, retryRead_nil]

/-- Witness for C3: a one-byte cache, a three-byte request and a budget of
two against a silent device yield the cached byte after exactly two bulk
reads. -/
theorem read_data_bytes_short_read_witness :
    (read_data_bytes 3 2 ⟨[5], 0, 64⟩ [] =
      .ok ([5], ⟨[], 0, 64⟩, 2) ∧ ([5] : List Nat).length < 3) :=
  read_data_bytes_short_read 3 2 ⟨[5], 0, 64⟩ (by decide) (by decide) (by decide)

/-- C4: for every input and every write-chunk size of at least one,
write_data cuts the input into chunks written sequentially: when the USB
stack accepts every chunk in full, the on-wire chunk payloads concatenate
to the input itself and the returned total equals the input length; and,
for an arbitrary USB stack, write_data raises JLinkError("Usb bulk write
error") exactly when one of the bulk writes it performed - any chunk of
the run, not only the first - reported a length of zero or less. -/
theorem write_data_spec (w : Nat) (hw : 1 ≤ w) (data : List Nat) :
    (∀ oracle : List Nat → Int, (∀ c, oracle c = c.length) →
       (write_data w data oracle).1 = .ok data.length ∧
       (write_data w data oracle).2.flatten = data) ∧
    (∀ bad : List Nat → Int,
       ((write_data w data bad).1 = .error "Usb bulk write error" ↔
         ∃ c ∈ (write_data w data bad).2, bad c ≤ 0)) := by
  constructor
  · intro oracle hful
    obtain ⟨h1, h2⟩ :=
      write_loop_ok w hw data oracle hful (data.length + 1) 0 (by omega) (by omega)
    exact ⟨h1, by simpa using h2⟩
  · intro bad
    exact write_loop_error_iff w data bad (data.length + 1) 0 (by omega)

/-- Witness for C4 at chunk size 2 and input [1, 2, 3]. -/
theorem write_data_spec_witness :
    (∀ oracle : List Nat → Int, (∀ c, oracle c = c.length) →
       (write_data 2 [1, 2, 3] oracle).1 = .ok 3 ∧
       (write_data 2 [1, 2, 3] oracle).2.flatten = [1, 2, 3]) ∧
    (∀ bad : List Nat → Int,
       ((write_data 2 [1, 2, 3] bad).1 = .error "Usb bulk write error" ↔
         ∃ c ∈ (write_data 2 [1, 2, 3] bad).2, bad c ≤ 0)) :=
  write_data_spec 2 (by decide) [1, 2, 3]

/-- A concrete mid-run failure, supporting C4: with chunk size 2 and input
[1, 2, 3, 4, 5], a USB stack that accepts the first chunk [1, 2] in full
and reports 0 for the second chunk [3, 4] makes write_data raise
"Usb bulk write error" after the successful first write, with exactly the
two chunks [1, 2] and [3, 4] having been put on the wire. -/
theorem write_data_second_chunk_failure :
    (write_data 2 [1, 2, 3, 4, 5]
        (fun c => if c = [1, 2] then 2 else 0)).1 =
      .error "Usb bulk write error" ∧
    (write_data 2 [1, 2, 3, 4, 5]
        (fun c => if c = [1, 2] then 2 else 0)).2 = [[1, 2], [3, 4]] := by
  constructor
  · rfl
  · rfl

/-- C5: each capability-gated operation - get_hw_version (bit 1),
get_max_mem_block (bit 11), get_config (bit 4) - raises
JLinkError("... not supported") with no transport I/O when its capability
bit is clear, read as (caps >> bit) & 1 = 0; when the bit is set, the
fixed-opcode command frame is written. -/
theorem capability_gating (caps : Nat) (stream : List Nat) :
    (((caps >>> EMU_CAP_GET_HW_VERSION) &&& 1 = 0 →
        get_hw_version caps stream =
          (.error "EMU_CMD_GET_HW_VERSION not supported", [])) ∧
     ((caps >>> EMU_CAP_GET_HW_VERSION) &&& 1 ≠ 0 →
        (get_hw_version caps stream).2 = [[EMU_CMD_GET_HW_VERSION]])) ∧
    (((caps >>> EMU_CAP_GET_MAX_BLOCK_SIZE) &&& 1 = 0 →
        get_max_mem_block caps stream =
          (.error "EMU_CMD_GET_MAX_MEM_BLOCK not supported", [])) ∧
     ((caps >>> EMU_CAP_GET_MAX_BLOCK_SIZE) &&& 1 ≠ 0 →
        (get_max_mem_block caps stream).2 = [[EMU_CMD_GET_MAX_MEM_BLOCK]])) ∧
    (((caps >>> EMU_CAP_READ_CONFIG) &&& 1 = 0 →
        get_config caps stream =
          (.error "EMU_CMD_READ_CONFIG not supported", [])) ∧
     ((caps >>> EMU_CAP_READ_CONFIG) &&& 1 ≠ 0 →
        (get_config caps stream).2 = [[EMU_CMD_READ_CONFIG]])) := by
  refine ⟨⟨?_, ?_⟩, ⟨?_, ?_⟩, ⟨?_, ?_⟩⟩ <;> intro h
  · simp only [get_hw_version]
    rw [if_pos ((gate_iff caps EMU_CAP_GET_HW_VERSION).mpr h)]
  · simp only [get_hw_version]
    rw [if_neg (fun hz => h ((gate_iff caps EMU_CAP_GET_HW_VERSION).mp hz))]
    split <;> rfl
  · simp only [get_max_mem_block]
    rw [if_pos ((gate_iff caps EMU_CAP_GET_MAX_BLOCK_SIZE).mpr h)]
  · simp only [get_max_mem_block]
    rw [if_neg (fun hz => h ((gate_iff caps EMU_CAP_GET_MAX_BLOCK_SIZE).mp hz))]
    split <;> rfl
  · simp only [get_config]
    rw [if_pos ((gate_iff caps EMU_CAP_READ_CONFIG).mpr h)]
  · simp only [get_config]
    rw [if_neg (fun hz => h ((gate_iff caps EMU_CAP_READ_CONFIG).mp hz))]

/-- Witness for C5 at caps = 2 (only bit 1 set) and a four-byte response
stream. -/
theorem capability_gating_witness :
    (((2 >>> EMU_CAP_GET_HW_VERSION) &&& 1 = 0 →
        get_hw_version 2 [1, 2, 3, 4] =
          (.error "EMU_CMD_GET_HW_VERSION not supported", [])) ∧
     ((2 >>> EMU_CAP_GET_HW_VERSION) &&& 1 ≠ 0 →
        (get_hw_version 2 [1, 2, 3, 4]).2 = [[EMU_CMD_GET_HW_VERSION]])) ∧
    (((2 >>> EMU_CAP_GET_MAX_BLOCK_SIZE) &&& 1 = 0 →
        get_max_mem_block 2 [1, 2, 3, 4] =
          (.error "EMU_CMD_GET_MAX_MEM_BLOCK not supported", [])) ∧
     ((2 >>> EMU_CAP_GET_MAX_BLOCK_SIZE) &&& 1 ≠ 0 →
        (get_max_mem_block 2 [1, 2, 3, 4]).2 = [[EMU_CMD_GET_MAX_MEM_BLOCK]])) ∧
    (((2 >>> EMU_CAP_READ_CONFIG) &&& 1 = 0 →
        get_config 2 [1, 2, 3, 4] =
          (.error "EMU_CMD_READ_CONFIG not supported", [])) ∧
     ((2 >>> EMU_CAP_READ_CONFIG) &&& 1 ≠ 0 →
        (get_config 2 [1, 2, 3, 4]).2 = [[EMU_CMD_READ_CONFIG]])) :=
  capability_gating 2 [1, 2, 3, 4]

/-- C6: for components type, major, minor, rev each at most 99, decoding
the packed hardware version type*1000000 + major*10000 + minor*100 + rev
with the fixed divisors of JLink.__str__ recovers exactly the components. -/
theorem decode_hw_version_roundtrip (ty ma mi re : Nat)
    (h1 : ty ≤ 99) (h2 : ma ≤ 99) (h3 : mi ≤ 99) (h4 : re ≤ 99) :
    decode_hw_version (ty * 1000000 + ma * 10000 + mi * 100 + re) =
      (ty, ma, mi, re) := by
  simp only [decode_hw_version, Prod.mk.injEq]
  refine ⟨?_, ?_, ?_, ?_⟩ <;> omega

/-- Witness for C6 at (1, 2, 3, 4). -/
theorem decode_hw_version_roundtrip_witness :
    decode_hw_version (1 * 1000000 + 2 * 10000 + 3 * 100 + 4) = (1, 2, 3, 4) :=
  decode_hw_version_roundtrip 1 2 3 4 (by decide) (by decide) (by decide) (by decide)

/-- C10: opening with interface number 0 never trips JLink.open's early
interface check (0 exceeds no interface count), and _set_interface remaps
0 to 1 before doing anything else, so the selection - index, interface and
endpoint pair, or the error - is identical to a call with interface 1. -/
theorem open_interface_zero_as_one (config : UsbConfig) :
    ¬ open_rejects_interface config.bNumInterfaces 0 ∧
    set_interface config 0 = set_interface config 1 := by
  constructor
  · simp [open_rejects_interface]
  · rfl

/-- Witness for C10 at a concrete two-interface configuration. -/
theorem open_interface_zero_as_one_witness :
    ¬ open_rejects_interface 2 0 ∧
    set_interface ⟨2, fun _ => [0x81, 0x01]⟩ 0 =
      set_interface ⟨2, fun _ => [0x81, 0x01]⟩ 1 :=
  open_interface_zero_as_one ⟨2, fun _ => [0x81, 0x01]⟩

end JLink

namespace Stlink

/-- C7: the command-channel exchange writes its command bytes exactly when
they are non-empty, reads by requesting exactly `size` bytes when
`size > 0`, and for a zero size performs no read and returns the empty
result (Python's None, carrying no bytes). -/
theorem send_recv_spec (data : List Nat) (size : Nat) (stream : List Nat) :
    ((send_recv data size stream).2.1 = if data = [] then [] else [data]) ∧
    (0 < size →
      (send_recv data size stream).1 = some (stream.take size) ∧
      (send_recv data size stream).2.2 = [size]) ∧
    (size = 0 →
      (send_recv data size stream).1 = none ∧
      (send_recv data size stream).2.2 = []) := by
  by_cases hs : 0 < size <;> by_cases hd : data = [] <;>
    simp [send_recv, hs, hd, List.length_pos] <;> omega

/-- Witness for C7 at the two-byte GETSTATUS frame, a two-byte response
request and a three-byte device stream. -/
theorem send_recv_spec_witness :
    ((send_recv [0xF2, 0x01] 2 [1, 2, 3]).2.1 =
      if ([0xF2, 0x01] : List Nat) = [] then [] else [[0xF2, 0x01]]) ∧
    (0 < 2 →
      (send_recv [0xF2, 0x01] 2 [1, 2, 3]).1 = some ([1, 2, 3].take 2) ∧
      (send_recv [0xF2, 0x01] 2 [1, 2, 3]).2.2 = [2]) ∧
    ((2 : Nat) = 0 →
      (send_recv [0xF2, 0x01] 2 [1, 2, 3]).1 = none ∧
      (send_recv [0xF2, 0x01] 2 [1, 2, 3]).2.2 = []) :=
  send_recv_spec [0xF2, 0x01] 2 [1, 2, 3]

/-- C8: every v1-only operation - get_status, halt, run, read_reg - fails
fast (the assert's AssertionError, message 'TODO for apiv2', the spec's
UnsupportedApiRevision) when the derived API revision is v2, with no
command frame written to the transport. -/
theorem apiv1_only_gating (stream : List Nat) (num : Nat) :
    get_status Api.v2 stream = (.error "TODO for apiv2", []) ∧
    halt Api.v2 stream = (.error "TODO for apiv2", []) ∧
    run Api.v2 stream = (.error "TODO for apiv2", []) ∧
    read_reg Api.v2 num stream = (.error "TODO for apiv2", []) :=
  ⟨rfl, rfl, rfl, rfl⟩

/-- Witness for C8 at a concrete response stream and register number. -/
theorem apiv1_only_gating_witness :
    get_status Api.v2 [0x80, 0] = (.error "TODO for apiv2", []) ∧
    halt Api.v2 [0x80, 0] = (.error "TODO for apiv2", []) ∧
    run Api.v2 [0x80, 0] = (.error "TODO for apiv2", []) ∧
    read_reg Api.v2 15 [0x80, 0] = (.error "TODO for apiv2", []) :=
  apiv1_only_gating [0x80, 0] 15

/-- C9 (code bug): any call of stlink.rd_mem8 - here rd_mem8(0, 1) against
a device ready to answer [7, 8] - passes the STLINK_MAX_RW8 assertion and
then raises NameError while building the command frame, because the
module never defines DBG_CMD_RDMEM_8BIT (the defined constant is
STLINK_DEBUG_READMEM_8BIT); no bytes are requested from the device, so
the claimed two-byte internal read and one-element result never happen. -/
theorem rd_mem8_undefined_name :
    rd_mem8 0 1 [7, 8] =
      (.error "NameError: name DBG_CMD_RDMEM_8BIT is not defined", []) := by
  rfl

end Stlink

end Pycs
